import Mathlib

/-!
Verification of the schema-driven DAO generator (`src/utils/codegen.py`).

The Python module is shallowly embedded: each Python function or property
becomes a total Lean function over `String`/`List Char`, keeping the source
names.  Python string primitives (`strip`, `split`, `upper`, `in`,
`startswith`, `replace`, `capitalize`, `title`) are modelled for ASCII input,
which covers every string the module manipulates.
-/

set_option maxRecDepth 100000
set_option linter.unusedVariables false

namespace Codegen

/-- Whitespace characters recognised by Python `str.split()` / `str.strip()`
and by the `re` module's blank class, restricted to ASCII. -/
def pyIsSpace (c : Char) : Bool :=
  c == ' ' || c == '\t' || c == '\n' || c == '\r' || c == '\x0b' || c == '\x0c'

/-- ASCII word character, as matched by a word pattern in Python `re`. -/
def isWordChar (c : Char) : Bool :=
  c.isAlphanum || c == '_'

/-- Python `str.upper()` on ASCII text. -/
def asciiUpper (s : String) : String :=
  ⟨s.data.map Char.toUpper⟩

/-- Python `str.lower()` on ASCII text. -/
def asciiLower (s : String) : String :=
  ⟨s.data.map Char.toLower⟩

/-- Python `str.strip()` (ASCII whitespace). -/
def pyStrip (s : String) : String :=
  ⟨((s.data.dropWhile pyIsSpace).reverse.dropWhile pyIsSpace).reverse⟩

/-- Python `str.replace(",", "")`. -/
def pyRemoveCommas (s : String) : String :=
  ⟨s.data.filter (fun c => c != ',')⟩

/-- Core of Python `str.split()` with no separator: split on runs of
whitespace, discarding empty pieces. -/
def splitWsAux : List Char → List Char → List (List Char)
  | [], acc => if acc.isEmpty then [] else [acc.reverse]
  | c :: cs, acc =>
      if pyIsSpace c then
        if acc.isEmpty then splitWsAux cs [] else acc.reverse :: splitWsAux cs []
      else
        splitWsAux cs (c :: acc)

/-- Python `str.split()` with no separator. -/
def pySplitWs (s : String) : List String :=
  (splitWsAux s.data []).map (fun l => ⟨l⟩)

/-- Python `str.split(sep)` for a single-character separator: exact split,
keeping empty pieces. -/
def splitCharAux (sep : Char) : List Char → List Char → List (List Char)
  | [], acc => [acc.reverse]
  | c :: cs, acc =>
      if c == sep then acc.reverse :: splitCharAux sep cs []
      else splitCharAux sep cs (c :: acc)

/-- Python `str.split("\n")`. -/
def pySplitLines (s : String) : List String :=
  (splitCharAux '\n' s.data []).map (fun l => ⟨l⟩)

/-- Substring test on character lists (Python `pat in s`). -/
def containsSubList (pat : List Char) : List Char → Bool
  | [] => pat.isEmpty
  | c :: cs => pat.isPrefixOf (c :: cs) || containsSubList pat cs

/-- Python `pat in s` (substring containment). -/
def containsSub (s pat : String) : Bool :=
  containsSubList pat.data s.data

/-- Python `s.startswith(pre)`. -/
def pyStartsWith (s pre : String) : Bool :=
  pre.data.isPrefixOf s.data

/-- Python `str.capitalize()` on ASCII: first character uppercased, the rest
lowercased. -/
def pyCapitalize (s : String) : String :=
  match s.data with
  | [] => ⟨[]⟩
  | c :: cs => ⟨c.toUpper :: cs.map Char.toLower⟩

/-- Core of Python `str.title()` on ASCII: a letter is uppercased when the
previous character is not a letter, lowercased otherwise. -/
def titleAux : Bool → List Char → List Char
  | _, [] => []
  | prevAlpha, c :: cs =>
      if c.isAlpha then
        (if prevAlpha then c.toLower else c.toUpper) :: titleAux true cs
      else
        c :: titleAux false cs

/-- Python `str.title()` on ASCII text. -/
def pyTitle (s : String) : String :=
  ⟨titleAux false s.data⟩

/-- Python `sep.join(parts)`. -/
def joinSep (sep : String) : List String → String
  | [] => ""
  | [x] => x
  | x :: y :: rest => x ++ sep ++ joinSep sep (y :: rest)

/-- Python `str.replace("_", " ")`. -/
def pyUnderscoreToSpace (s : String) : String :=
  ⟨s.data.map (fun c => if c == '_' then ' ' else c)⟩

/-- Python `"_"`-split (`str.split("_")`), used by `struct_name`. -/
def pySplitUnderscore (s : String) : List String :=
  (splitCharAux '_' s.data []).map (fun l => ⟨l⟩)

/-
## Data model (`DatabaseColumn`, `DatabaseTable`)
-/

/-- `DatabaseColumn` dataclass of `src/utils/codegen.py`. -/
structure DatabaseColumn where
  name : String
  column_type : String
  nullable : Bool := false
  primary_key : Bool := false
  foreign_key : Option String := none
  deriving DecidableEq, Repr

/-- The `type_mapping` dict of `DatabaseColumn.rust_type`. -/
def rustTypeMapping : List (String × String) :=
  [("TEXT", "String"), ("VARCHAR", "String"), ("INTEGER", "i32"),
   ("BIGINT", "i64"), ("BOOLEAN", "bool"), ("TIMESTAMP", "DateTime<Utc>"),
   ("UUID", "Uuid"), ("JSONB", "serde_json::Value")]

/-- The `type_mapping` dict of `DatabaseColumn.cpp_type`. -/
def cppTypeMapping : List (String × String) :=
  [("TEXT", "std::string"), ("VARCHAR", "std::string"), ("INTEGER", "int"),
   ("BIGINT", "int64_t"), ("BOOLEAN", "bool"),
   ("TIMESTAMP", "std::chrono::system_clock::time_point"),
   ("UUID", "std::string"), ("JSONB", "nlohmann::json")]

/-- The `type_mapping` dict of `DatabaseColumn.python_type`. -/
def pythonTypeMapping : List (String × String) :=
  [("TEXT", "str"), ("VARCHAR", "str"), ("INTEGER", "int"),
   ("BIGINT", "int"), ("BOOLEAN", "bool"), ("TIMESTAMP", "datetime"),
   ("UUID", "UUID"), ("JSONB", "dict")]

/-- The `type_mapping` dict of `DatabaseColumn.go_type`. -/
def goTypeMapping : List (String × String) :=
  [("TEXT", "string"), ("VARCHAR", "string"), ("INTEGER", "int"),
   ("BIGINT", "int64"), ("BOOLEAN", "bool"), ("TIMESTAMP", "time.Time"),
   ("UUID", "uuid.UUID"), ("JSONB", "map[string]interface\x7b\x7d")]

/-- `DatabaseColumn.rust_type`: dict lookup on the uppercased raw type with
default `String`, then optional wrapping unless the column is a primary
key. -/
def DatabaseColumn.rust_type (c : DatabaseColumn) : String :=
  let rust_type := (List.lookup (asciiUpper c.column_type) rustTypeMapping).getD "String"
  if c.nullable && !c.primary_key then "Option<" ++ rust_type ++ ">" else rust_type

/-- `DatabaseColumn.cpp_type`. -/
def DatabaseColumn.cpp_type (c : DatabaseColumn) : String :=
  let cpp_type := (List.lookup (asciiUpper c.column_type) cppTypeMapping).getD "std::string"
  if c.nullable && !c.primary_key then "std::optional<" ++ cpp_type ++ ">" else cpp_type

/-- `DatabaseColumn.python_type`. -/
def DatabaseColumn.python_type (c : DatabaseColumn) : String :=
  let py_type := (List.lookup (asciiUpper c.column_type) pythonTypeMapping).getD "str"
  if c.nullable && !c.primary_key then "Optional[" ++ py_type ++ "]" else py_type

/-- `DatabaseColumn.go_type`. -/
def DatabaseColumn.go_type (c : DatabaseColumn) : String :=
  let go_type := (List.lookup (asciiUpper c.column_type) goTypeMapping).getD "string"
  if c.nullable && !c.primary_key then "*" ++ go_type else go_type

/-- `DatabaseTable` dataclass. -/
structure DatabaseTable where
  name : String
  columns : List DatabaseColumn := []
  deriving DecidableEq, Repr

/-- `DatabaseTable.struct_name`: capitalize each `_`-separated word and
concatenate. -/
def DatabaseTable.struct_name (t : DatabaseTable) : String :=
  joinSep "" ((pySplitUnderscore t.name).map pyCapitalize)

/-- `DatabaseTable.primary_key`: first column flagged as primary key, if
any. -/
def DatabaseTable.primary_key (t : DatabaseTable) : Option DatabaseColumn :=
  t.columns.find? (fun col => col.primary_key)

/-
## Backend abstraction used only to state claims uniformly
-/

/-- The four backends of the generator. -/
inductive Backend
  | rust
  | cpp
  | python
  | go
  deriving DecidableEq, Repr

/-- The per-backend `type_mapping` dict. -/
def typeMapping : Backend → List (String × String)
  | .rust => rustTypeMapping
  | .cpp => cppTypeMapping
  | .python => pythonTypeMapping
  | .go => goTypeMapping

/-- The per-backend default of the dict `get`, which is also each backend's
`TEXT` mapping. -/
def textFallback : Backend → String
  | .rust => "String"
  | .cpp => "std::string"
  | .python => "str"
  | .go => "string"

/-- The bare native type: the dict lookup each `*_type` property performs
before nullability wrapping. -/
def baseType (b : Backend) (tok : String) : String :=
  (List.lookup (asciiUpper tok) (typeMapping b)).getD (textFallback b)

/-- The per-backend optional/nullable wrapper applied by the `*_type`
properties. -/
def wrapOptional (b : Backend) (s : String) : String :=
  match b with
  | .rust => "Option<" ++ s ++ ">"
  | .cpp => "std::optional<" ++ s ++ ">"
  | .python => "Optional[" ++ s ++ "]"
  | .go => "*" ++ s

/-- The resolved native type of a column for a backend: dispatches to the
source's `rust_type` / `cpp_type` / `python_type` / `go_type`. -/
def resolvedType (b : Backend) (c : DatabaseColumn) : String :=
  match b with
  | .rust => c.rust_type
  | .cpp => c.cpp_type
  | .python => c.python_type
  | .go => c.go_type

/-
## Schema parsing (`RustDAOGenerator.parse_sql_schema`, `_parse_columns`)

The table pattern is the fixed regular expression
`CREATE TABLE\s+(\w+)\s*\((.*?)\);` searched with `re.finditer` under
`DOTALL | IGNORECASE`; it is embedded as a deterministic scanner.  Since the
word class and the blank class are disjoint from each other and from `(`,
greedy and lazy repetition are both forced and the match at a given start
position is unique.
-/

/-- Case-insensitive literal match (the `IGNORECASE` flag): consume `pat`
from the front of `cs`, comparing uppercased characters. -/
def stripLiteralCI : List Char → List Char → Option (List Char)
  | [], cs => some cs
  | _ :: _, [] => none
  | p :: ps, c :: cs =>
      if c.toUpper == p.toUpper then stripLiteralCI ps cs else none

/-- Split at the first occurrence of the two-character terminator `);`
(the lazy group `(.*?)\);`): the part before it and the part after it. -/
def splitAtClose : List Char → Option (List Char × List Char)
  | [] => none
  | c :: cs =>
      if [')', ';'].isPrefixOf (c :: cs) then some ([], cs.drop 1)
      else match splitAtClose cs with
        | some (body, rest) => some (c :: body, rest)
        | none => none

/-- Try to match the table pattern starting exactly at the head of `cs`;
on success return the table-name group, the column-section group, and the
text after the match. -/
def matchCreateTable (cs : List Char) : Option (List Char × List Char × List Char) :=
  match stripLiteralCI "CREATE TABLE".data cs with
  | none => none
  | some cs₁ =>
      let ws := cs₁.takeWhile pyIsSpace
      if ws.isEmpty then none
      else
        let cs₂ := cs₁.dropWhile pyIsSpace
        let name := cs₂.takeWhile isWordChar
        if name.isEmpty then none
        else
          let cs₃ := (cs₂.dropWhile isWordChar).dropWhile pyIsSpace
          match cs₃ with
          | '(' :: cs₄ =>
              match splitAtClose cs₄ with
              | some (body, rest) => some (name, body, rest)
              | none => none
          | _ => none

/-- `re.finditer` over the text: leftmost non-overlapping matches, scanning
one character at a time; `fuel` bounds the recursion and is instantiated
with the text length. -/
def findTables (fuel : Nat) (cs : List Char) : List (List Char × List Char) :=
  match fuel with
  | 0 => []
  | fuel + 1 =>
      match matchCreateTable cs with
      | some (name, body, rest) => (name, body) :: findTables fuel rest
      | none =>
          match cs with
          | [] => []
          | _ :: tl => findTables fuel tl

/-- Loop body of `RustDAOGenerator._parse_columns` for one stripped,
non-empty line: skip table-level constraint lines, then take the first two
whitespace tokens of the comma-stripped line as name and raw type, and scan
the uppercased line for the not-null and primary-key markers. -/
def columnOfLine (line : String) : Option DatabaseColumn :=
  if pyStartsWith line "CONSTRAINT" || pyStartsWith line "PRIMARY KEY"
      || pyStartsWith line "FOREIGN KEY" then
    none
  else
    match pySplitWs (pyRemoveCommas line) with
    | name :: col_type :: _ =>
        let nullable := !containsSub (asciiUpper line) "NOT NULL"
        let primary_key := containsSub (asciiUpper line) "PRIMARY KEY"
        some ⟨name, col_type, nullable, primary_key, none⟩
    | _ => none

/-- `RustDAOGenerator._parse_columns`: split the column section by line
break, strip each line, drop empty lines, and build a column per surviving
line. -/
def parseColumns (columns_str : String) : List DatabaseColumn :=
  (((pySplitLines columns_str).map pyStrip).filter (fun l => l ≠ "")).filterMap columnOfLine

/-- `RustDAOGenerator.parse_sql_schema`: find every `CREATE TABLE` block and
parse its column section. -/
def parse_sql_schema (schema_content : String) : List DatabaseTable :=
  (findTables (schema_content.data.length + 1) schema_content.data).map
    (fun nb => ⟨⟨nb.1⟩, parseColumns ⟨nb.2⟩⟩)

/-- The schema text of end-to-end scenario 1, exactly as the spec writes
it: a single line. -/
def scenario1Schema : String :=
  "CREATE TABLE users (id UUID PRIMARY KEY, email VARCHAR NOT NULL, bio TEXT);"

/-- Scenario 1's schema with each column declaration on its own line. -/
def scenario1SchemaMultiline : String :=
  "CREATE TABLE users (\n  id UUID PRIMARY KEY,\n  email VARCHAR NOT NULL,\n  bio TEXT\n);"

/-
## Rust emitters (`RustDAOGenerator`)

Literal braces of the emitted code are written `\x7b` / `\x7d`; the
templates are otherwise verbatim, including trailing blanks on otherwise
empty lines.
-/

/-- The expression `pk.name if pk else 'id'` / `table.primary_key.name if
table.primary_key else 'id'` used by the store and mock emitters for the
key column of their queries. -/
def pkColName (t : DatabaseTable) : String :=
  match t.primary_key with
  | some pk => pk.name
  | none => "id"

/-- The expression `pk.rust_type if pk else 'Uuid'` computing the key type
of the Rust DAO trait, store implementation and mock. -/
def rustDaoPkType (t : DatabaseTable) : String :=
  match t.primary_key with
  | some pk => pk.rust_type
  | none => "Uuid"

namespace RustDAOGenerator

/-- `RustDAOGenerator.generate_model`. -/
def generate_model (table : DatabaseTable) : String :=
  let imports := [
    "use chrono::\x7bDateTime, Utc\x7d;",
    "use serde::\x7bDeserialize, Serialize\x7d;",
    "use utoipa::ToSchema;",
    "use uuid::Uuid;"]
  let fields := table.columns.map (fun col =>
    "    /// " ++ pyTitle (pyUnderscoreToSpace col.name) ++ "\n    pub "
      ++ col.name ++ ": " ++ col.rust_type ++ ",")
  pyStrip ("\n" ++ joinSep "\n" imports
    ++ "\n\n/// Represents a " ++ table.name
    ++ " in the system\n#[derive(Debug, Clone, Serialize, Deserialize, ToSchema)]\npub struct "
    ++ table.struct_name ++ " \x7b\n" ++ joinSep "\n" fields ++ "\n\x7d\n")

/-- `RustDAOGenerator.generate_dao_trait`. -/
def generate_dao_trait (table : DatabaseTable) : String :=
  let struct_name := table.struct_name
  let trait_name := struct_name ++ "DAO"
  let pk_type := rustDaoPkType table
  let methods := [
    "    /// Find " ++ table.name ++ " by ID",
    "    async fn find_by_id(&self, id: " ++ pk_type ++ ") -> Result<Option<"
      ++ struct_name ++ ">, DatabaseError>;",
    "",
    "    /// Find all " ++ table.name,
    "    async fn find_all(&self) -> Result<Vec<" ++ struct_name ++ ">, DatabaseError>;",
    "",
    "    /// Create a new " ++ table.name,
    "    async fn create(&self, entity: &" ++ struct_name ++ ") -> Result<"
      ++ pk_type ++ ", DatabaseError>;",
    "",
    "    /// Update " ++ table.name,
    "    async fn update(&self, id: " ++ pk_type ++ ", entity: &" ++ struct_name
      ++ ") -> Result<(), DatabaseError>;",
    "",
    "    /// Delete " ++ table.name,
    "    async fn delete(&self, id: " ++ pk_type ++ ") -> Result<(), DatabaseError>;"]
  pyStrip ("\nuse crate::model::error::DatabaseError;\nuse crate::model::"
    ++ asciiLower struct_name ++ "::model::" ++ struct_name
    ++ ";\nuse async_trait::async_trait;\nuse uuid::Uuid;\nuse std::sync::Arc;\n\n#[async_trait]\npub trait "
    ++ trait_name ++ ": Send + Sync \x7b\n" ++ joinSep "\n" methods ++ "\n\x7d\n")

/-- `RustDAOGenerator._generate_field_mapping`: nullable (option-typed)
columns are read defensively with `try_get(..).ok()`, the rest with
`get`. -/
def _generate_field_mapping (table : DatabaseTable) (indent : String) : String :=
  joinSep "\n" (table.columns.map (fun col =>
    if pyStartsWith col.rust_type "Option<" then
      indent ++ col.name ++ ": row.try_get(\"" ++ col.name ++ "\").ok(),"
    else
      indent ++ col.name ++ ": row.get(\"" ++ col.name ++ "\"),"))

/-- `RustDAOGenerator.generate_pg_dao_impl`. -/
def generate_pg_dao_impl (table : DatabaseTable) : String :=
  let struct_name := table.struct_name
  let trait_name := struct_name ++ "DAO"
  let impl_name := "Pg" ++ struct_name ++ "DAO"
  let pk_type := rustDaoPkType table
  pyStrip ("\nuse super::dao::" ++ trait_name
    ++ ";\nuse crate::model::error::DatabaseError;\nuse crate::model::"
    ++ asciiLower struct_name ++ "::model::" ++ struct_name
    ++ ";\nuse async_trait::async_trait;\nuse sqlx::\x7bPgPool, Row\x7d;\nuse std::sync::Arc;\nuse uuid::Uuid;\n\npub struct "
    ++ impl_name ++ " \x7b\n    pool: Arc<PgPool>,\n\x7d\n\nimpl " ++ impl_name
    ++ " \x7b\n    pub fn new(pool: Arc<PgPool>) -> Self \x7b\n        Self \x7b pool \x7d\n    \x7d\n\x7d\n\n#[async_trait]\nimpl "
    ++ trait_name ++ " for " ++ impl_name
    ++ " \x7b\n    async fn find_by_id(&self, id: " ++ pk_type
    ++ ") -> Result<Option<" ++ struct_name
    ++ ">, DatabaseError> \x7b\n        let query = \"SELECT * FROM " ++ table.name
    ++ " WHERE " ++ pkColName table
    ++ " = $1\";\n        \n        match sqlx::query(query)\n            .bind(id)\n            .fetch_optional(self.pool.as_ref())\n            .await\n        \x7b\n            Ok(Some(row)) => \x7b\n                let entity = "
    ++ struct_name ++ " \x7b\n" ++ _generate_field_mapping table "                    "
    ++ "\n                \x7d;\n                Ok(Some(entity))\n            \x7d,\n            Ok(None) => Ok(None),\n            Err(e) => Err(DatabaseError::QueryError(e.to_string())),\n        \x7d\n    \x7d\n    \n    async fn find_all(&self) -> Result<Vec<"
    ++ struct_name ++ ">, DatabaseError> \x7b\n        let query = \"SELECT * FROM "
    ++ table.name
    ++ "\";\n        \n        match sqlx::query(query)\n            .fetch_all(self.pool.as_ref())\n            .await\n        \x7b\n            Ok(rows) => \x7b\n                let entities: Vec<"
    ++ struct_name
    ++ "> = rows\n                    .into_iter()\n                    .map(|row| "
    ++ struct_name ++ " \x7b\n" ++ _generate_field_mapping table "                        "
    ++ "\n                    \x7d)\n                    .collect();\n                Ok(entities)\n            \x7d,\n            Err(e) => Err(DatabaseError::QueryError(e.to_string())),\n        \x7d\n    \x7d\n    \n    async fn create(&self, entity: &"
    ++ struct_name ++ ") -> Result<" ++ pk_type
    ++ ", DatabaseError> \x7b\n        // Implementation would go here\n        todo!(\"Implement create method\")\n    \x7d\n    \n    async fn update(&self, id: "
    ++ pk_type ++ ", entity: &" ++ struct_name
    ++ ") -> Result<(), DatabaseError> \x7b\n        // Implementation would go here\n        todo!(\"Implement update method\")\n    \x7d\n    \n    async fn delete(&self, id: "
    ++ pk_type
    ++ ") -> Result<(), DatabaseError> \x7b\n        let query = \"DELETE FROM "
    ++ table.name ++ " WHERE " ++ pkColName table
    ++ " = $1\";\n        \n        match sqlx::query(query)\n            .bind(id)\n            .execute(self.pool.as_ref())\n            .await\n        \x7b\n            Ok(_) => Ok(()),\n            Err(e) => Err(DatabaseError::QueryError(e.to_string())),\n        \x7d\n    \x7d\n\x7d\n")

/-- `RustDAOGenerator.generate_mock_dao`. -/
def generate_mock_dao (table : DatabaseTable) : String :=
  let struct_name := table.struct_name
  let trait_name := struct_name ++ "DAO"
  let mock_name := "Mock" ++ struct_name ++ "DAO"
  let pk_type := rustDaoPkType table
  pyStrip ("\nuse super::dao::" ++ trait_name
    ++ ";\nuse crate::model::error::DatabaseError;\nuse crate::model::"
    ++ asciiLower struct_name ++ "::model::" ++ struct_name
    ++ ";\nuse async_trait::async_trait;\nuse std::collections::HashMap;\nuse std::sync::\x7bArc, Mutex\x7d;\nuse uuid::Uuid;\n\n#[derive(Debug, Clone, Default)]\npub struct "
    ++ mock_name ++ " \x7b\n    entities: Arc<Mutex<HashMap<" ++ pk_type ++ ", "
    ++ struct_name ++ ">>>,\n\x7d\n\nimpl " ++ mock_name
    ++ " \x7b\n    pub fn new() -> Self \x7b\n        Self::default()\n    \x7d\n    \n    pub fn with_data(entities: Vec<"
    ++ struct_name
    ++ ">) -> Self \x7b\n        let mut map = HashMap::new();\n        for entity in entities \x7b\n            map.insert(entity."
    ++ pkColName table
    ++ ", entity);\n        \x7d\n        \n        Self \x7b\n            entities: Arc::new(Mutex::new(map)),\n        \x7d\n    \x7d\n\x7d\n\n#[async_trait]\nimpl "
    ++ trait_name ++ " for " ++ mock_name
    ++ " \x7b\n    async fn find_by_id(&self, id: " ++ pk_type
    ++ ") -> Result<Option<" ++ struct_name
    ++ ">, DatabaseError> \x7b\n        let entities = self.entities.lock().unwrap();\n        Ok(entities.get(&id).cloned())\n    \x7d\n    \n    async fn find_all(&self) -> Result<Vec<"
    ++ struct_name
    ++ ">, DatabaseError> \x7b\n        let entities = self.entities.lock().unwrap();\n        Ok(entities.values().cloned().collect())\n    \x7d\n    \n    async fn create(&self, entity: &"
    ++ struct_name ++ ") -> Result<" ++ pk_type
    ++ ", DatabaseError> \x7b\n        let mut entities = self.entities.lock().unwrap();\n        let id = entity."
    ++ pkColName table
    ++ ";\n        entities.insert(id, entity.clone());\n        Ok(id)\n    \x7d\n    \n    async fn update(&self, id: "
    ++ pk_type ++ ", entity: &" ++ struct_name
    ++ ") -> Result<(), DatabaseError> \x7b\n        let mut entities = self.entities.lock().unwrap();\n        entities.insert(id, entity.clone());\n        Ok(())\n    \x7d\n    \n    async fn delete(&self, id: "
    ++ pk_type
    ++ ") -> Result<(), DatabaseError> \x7b\n        let mut entities = self.entities.lock().unwrap();\n        entities.remove(&id);\n        Ok(())\n    \x7d\n\x7d\n")

end RustDAOGenerator

/-- The fixed `mod.rs` wiring file written by
`generate_rust_dao_from_schema`. -/
def modRsContent : String :=
  "pub mod dao;\npub mod model;\npub mod pg_dao;\npub mod mock_dao;\npub mod error;\npub mod response;\n\npub use dao::*;\npub use model::*;\npub use pg_dao::*;\npub use mock_dao::*;\n"

/-
## Orchestrators and their filesystem effects

The schema file is modelled as `Option String` (`none` when the path does
not resolve to a readable file, in which case Python's `open` raises);
filesystem effects are collected as an ordered list of operations.
-/

/-- A filesystem effect performed by the generators. -/
inductive FsOp
  | mkdir (path : String)
  | write (path : String) (content : String)
  deriving DecidableEq, Repr

/-- The failures surfaced by the orchestrators: the unsupported-backend
`ValueError` and the `FileNotFoundError` of `open`. -/
inductive GenError
  | unsupportedLanguage (language : String)
  | schemaFileNotFound
  deriving DecidableEq, Repr

/-- `generate_rust_dao_from_schema`: read the schema, parse it, and per
table create `model/<table>` and write the five artifacts. -/
def generate_rust_dao_from_schema (schema_file : Option String)
    (output_dir service_name : String) : Except GenError (List FsOp) :=
  match schema_file with
  | none => .error .schemaFileNotFound
  | some schema_content =>
      let tables := parse_sql_schema schema_content
      .ok ((tables.map (fun table =>
        let table_dir := output_dir ++ "/model/" ++ table.name
        [FsOp.mkdir table_dir,
         FsOp.write (table_dir ++ "/model.rs") (RustDAOGenerator.generate_model table),
         FsOp.write (table_dir ++ "/dao.rs") (RustDAOGenerator.generate_dao_trait table),
         FsOp.write (table_dir ++ "/pg_dao.rs") (RustDAOGenerator.generate_pg_dao_impl table),
         FsOp.write (table_dir ++ "/mock_dao.rs") (RustDAOGenerator.generate_mock_dao table),
         FsOp.write (table_dir ++ "/mod.rs") modRsContent])).flatten)

/-- The write operations of a generation result. -/
def writesOf : Except GenError (List FsOp) → List (String × String)
  | .error _ => []
  | .ok ops => ops.filterMap (fun op =>
      match op with
      | .write p c => some (p, c)
      | .mkdir _ => none)

/-
## C++ emitters (`CppDAOGenerator`)
-/

/-- The expression `pk.cpp_type if pk else 'std::string'` computing the key
type of the C++ DAO interface and store implementation. -/
def cppDaoPkType (t : DatabaseTable) : String :=
  match t.primary_key with
  | some pk => pk.cpp_type
  | none => "std::string"

namespace CppDAOGenerator

/-- `CppDAOGenerator.generate_model`. -/
def generate_model (table : DatabaseTable) : String :=
  let includes := [
    "#pragma once",
    "#include <string>",
    "#include <optional>",
    "#include <chrono>",
    "#include <nlohmann/json.hpp>"]
  let fields := table.columns.map (fun col =>
    "    " ++ col.cpp_type ++ " " ++ col.name ++ ";")
  pyStrip ("\n" ++ joinSep "\n" includes
    ++ "\n\nnamespace models \x7b\n\n/// Represents a " ++ table.name
    ++ " in the system\nstruct " ++ table.struct_name ++ " \x7b\n"
    ++ joinSep "\n" fields
    ++ "\n    \n    // Convert to JSON\n    nlohmann::json to_json() const;\n    \n    // Create from JSON\n    static "
    ++ table.struct_name
    ++ " from_json(const nlohmann::json& j);\n    \n    // Equality operator\n    bool operator==(const "
    ++ table.struct_name
    ++ "& other) const;\n\x7d;\n\n// JSON serialization functions\nvoid to_json(nlohmann::json& j, const "
    ++ table.struct_name ++ "& obj);\nvoid from_json(const nlohmann::json& j, "
    ++ table.struct_name ++ "& obj);\n\n\x7d // namespace models\n")

/-- `CppDAOGenerator.generate_dao_interface`. -/
def generate_dao_interface (table : DatabaseTable) : String :=
  let struct_name := table.struct_name
  let interface_name := struct_name ++ "DAO"
  let pk_type := cppDaoPkType table
  pyStrip ("\n#pragma once\n#include \"models/" ++ table.name
    ++ ".hpp\"\n#include <vector>\n#include <optional>\n#include <memory>\n#include <future>\n\nnamespace dao \x7b\n\nclass "
    ++ interface_name ++ " \x7b\npublic:\n    virtual ~" ++ interface_name
    ++ "() = default;\n    \n    /// Find " ++ table.name
    ++ " by ID\n    virtual std::future<std::optional<models::" ++ struct_name
    ++ ">> find_by_id(const " ++ pk_type
    ++ "& id) = 0;\n    \n    /// Find all " ++ table.name
    ++ "\n    virtual std::future<std::vector<models::" ++ struct_name
    ++ ">> find_all() = 0;\n    \n    /// Create a new " ++ table.name
    ++ "\n    virtual std::future<" ++ pk_type ++ "> create(const models::"
    ++ struct_name ++ "& entity) = 0;\n    \n    /// Update " ++ table.name
    ++ "\n    virtual std::future<bool> update(const " ++ pk_type
    ++ "& id, const models::" ++ struct_name
    ++ "& entity) = 0;\n    \n    /// Delete " ++ table.name
    ++ "\n    virtual std::future<bool> delete_entity(const " ++ pk_type
    ++ "& id) = 0;\n\x7d;\n\n\x7d // namespace dao\n")

/-- `CppDAOGenerator.generate_pg_dao_impl`. -/
def generate_pg_dao_impl (table : DatabaseTable) : String :=
  let struct_name := table.struct_name
  let interface_name := struct_name ++ "DAO"
  let impl_name := "Pg" ++ struct_name ++ "DAO"
  let pk_type := cppDaoPkType table
  pyStrip ("\n#pragma once\n#include \"dao/" ++ table.name
    ++ "_dao.hpp\"\n#include <pqxx/pqxx>\n#include <memory>\n\nnamespace dao \x7b\n\nclass "
    ++ impl_name ++ " : public " ++ interface_name
    ++ " \x7b\nprivate:\n    std::shared_ptr<pqxx::connection> connection_;\n    \npublic:\n    explicit "
    ++ impl_name
    ++ "(std::shared_ptr<pqxx::connection> conn);\n    \n    std::future<std::optional<models::"
    ++ struct_name ++ ">> find_by_id(const " ++ pk_type
    ++ "& id) override;\n    std::future<std::vector<models::" ++ struct_name
    ++ ">> find_all() override;\n    std::future<" ++ pk_type
    ++ "> create(const models::" ++ struct_name
    ++ "& entity) override;\n    std::future<bool> update(const " ++ pk_type
    ++ "& id, const models::" ++ struct_name
    ++ "& entity) override;\n    std::future<bool> delete_entity(const "
    ++ pk_type ++ "& id) override;\n    \nprivate:\n    models::" ++ struct_name
    ++ " row_to_entity(const pqxx::row& row);\n\x7d;\n\n\x7d // namespace dao\n")

end CppDAOGenerator

/-
## Python emitters (`PythonDAOGenerator`)

Literal single quotes of the emitted code are written `\x27`.
-/

/-- The expression `pk.python_type if pk else 'UUID'` computing the key
type of the Python DAO interface and SQLAlchemy implementation. -/
def pythonDaoPkType (t : DatabaseTable) : String :=
  match t.primary_key with
  | some pk => pk.python_type
  | none => "UUID"

namespace PythonDAOGenerator

/-- `PythonDAOGenerator.generate_model`. -/
def generate_model (table : DatabaseTable) : String :=
  let imports := [
    "from datetime import datetime",
    "from typing import Optional",
    "from uuid import UUID",
    "from pydantic import BaseModel, Field"]
  let fields := table.columns.map (fun col =>
    if col.primary_key then
      "    " ++ col.name ++ ": " ++ col.python_type ++ " = Field(..., description=\x27"
        ++ pyTitle (pyUnderscoreToSpace col.name) ++ "\x27)"
    else
      let dflt := if col.nullable then "None" else "..."
      "    " ++ col.name ++ ": " ++ col.python_type ++ " = Field(" ++ dflt
        ++ ", description=\x27" ++ pyTitle (pyUnderscoreToSpace col.name) ++ "\x27)")
  let nonPk := table.columns.filter (fun col => !col.primary_key)
  pyStrip ("\n" ++ joinSep "\n" imports ++ "\n\n\nclass " ++ table.struct_name
    ++ "(BaseModel):\n    \"\"\"Represents a " ++ table.name
    ++ " in the system.\"\"\"\n    \n" ++ joinSep "\n" fields
    ++ "\n    \n    class Config:\n        from_attributes = True\n        json_encoders = \x7b\n            datetime: lambda v: v.isoformat(),\n            UUID: lambda v: str(v),\n        \x7d\n\n\nclass "
    ++ table.struct_name ++ "Create(BaseModel):\n    \"\"\"Schema for creating a "
    ++ table.name ++ ".\"\"\"\n    \n"
    ++ joinSep "\n" (nonPk.map (fun col => "    " ++ col.name ++ ": " ++ col.python_type))
    ++ "\n\n\nclass " ++ table.struct_name
    ++ "Update(BaseModel):\n    \"\"\"Schema for updating a " ++ table.name
    ++ ".\"\"\"\n    \n"
    ++ joinSep "\n" (nonPk.map (fun col =>
        "    " ++ col.name ++ ": Optional[" ++ col.python_type ++ "] = None"))
    ++ "\n")

/-- `PythonDAOGenerator.generate_dao_interface`. -/
def generate_dao_interface (table : DatabaseTable) : String :=
  let struct_name := table.struct_name
  let pk_type := pythonDaoPkType table
  pyStrip ("\nfrom abc import ABC, abstractmethod\nfrom typing import List, Optional\nfrom uuid import UUID\nfrom .models import "
    ++ struct_name ++ ", " ++ struct_name ++ "Create, " ++ struct_name
    ++ "Update\n\n\nclass " ++ struct_name
    ++ "DAO(ABC):\n    \"\"\"Abstract DAO for " ++ table.name
    ++ " operations.\"\"\"\n    \n    @abstractmethod\n    async def find_by_id(self, entity_id: "
    ++ pk_type ++ ") -> Optional[" ++ struct_name ++ "]:\n        \"\"\"Find "
    ++ table.name
    ++ " by ID.\"\"\"\n        pass\n    \n    @abstractmethod\n    async def find_all(self) -> List["
    ++ struct_name ++ "]:\n        \"\"\"Find all " ++ table.name
    ++ ".\"\"\"\n        pass\n    \n    @abstractmethod\n    async def create(self, entity: "
    ++ struct_name ++ "Create) -> " ++ struct_name ++ ":\n        \"\"\"Create a new "
    ++ table.name
    ++ ".\"\"\"\n        pass\n    \n    @abstractmethod\n    async def update(self, entity_id: "
    ++ pk_type ++ ", entity: " ++ struct_name ++ "Update) -> Optional["
    ++ struct_name ++ "]:\n        \"\"\"Update " ++ table.name
    ++ ".\"\"\"\n        pass\n    \n    @abstractmethod\n    async def delete(self, entity_id: "
    ++ pk_type ++ ") -> bool:\n        \"\"\"Delete " ++ table.name
    ++ ".\"\"\"\n        pass\n")

/-- `PythonDAOGenerator.generate_sqlalchemy_dao`. -/
def generate_sqlalchemy_dao (table : DatabaseTable) : String :=
  let struct_name := table.struct_name
  let pk_type := pythonDaoPkType table
  pyStrip ("\nfrom typing import List, Optional\nfrom uuid import UUID\nfrom sqlalchemy.ext.asyncio import AsyncSession\nfrom sqlalchemy import select, update, delete\nfrom .dao import "
    ++ struct_name ++ "DAO\nfrom .models import " ++ struct_name ++ ", "
    ++ struct_name ++ "Create, " ++ struct_name
    ++ "Update\nfrom ..database import " ++ struct_name
    ++ "Model  # SQLAlchemy model\n\n\nclass SQLAlchemy" ++ struct_name
    ++ "DAO(" ++ struct_name ++ "DAO):\n    \"\"\"SQLAlchemy implementation of "
    ++ struct_name
    ++ "DAO.\"\"\"\n    \n    def __init__(self, session: AsyncSession):\n        self.session = session\n    \n    async def find_by_id(self, entity_id: "
    ++ pk_type ++ ") -> Optional[" ++ struct_name ++ "]:\n        \"\"\"Find "
    ++ table.name ++ " by ID.\"\"\"\n        stmt = select(" ++ struct_name
    ++ "Model).where(" ++ struct_name ++ "Model." ++ pkColName table
    ++ " == entity_id)\n        result = await self.session.execute(stmt)\n        model = result.scalar_one_or_none()\n        \n        if model:\n            return "
    ++ struct_name
    ++ ".from_orm(model)\n        return None\n    \n    async def find_all(self) -> List["
    ++ struct_name ++ "]:\n        \"\"\"Find all " ++ table.name
    ++ ".\"\"\"\n        stmt = select(" ++ struct_name
    ++ "Model)\n        result = await self.session.execute(stmt)\n        models = result.scalars().all()\n        \n        return ["
    ++ struct_name
    ++ ".from_orm(model) for model in models]\n    \n    async def create(self, entity: "
    ++ struct_name ++ "Create) -> " ++ struct_name ++ ":\n        \"\"\"Create a new "
    ++ table.name ++ ".\"\"\"\n        model = " ++ struct_name
    ++ "Model(**entity.dict())\n        self.session.add(model)\n        await self.session.commit()\n        await self.session.refresh(model)\n        \n        return "
    ++ struct_name
    ++ ".from_orm(model)\n    \n    async def update(self, entity_id: " ++ pk_type
    ++ ", entity: " ++ struct_name ++ "Update) -> Optional[" ++ struct_name
    ++ "]:\n        \"\"\"Update " ++ table.name
    ++ ".\"\"\"\n        update_data = entity.dict(exclude_unset=True)\n        if not update_data:\n            return await self.find_by_id(entity_id)\n        \n        stmt = (\n            update("
    ++ struct_name ++ "Model)\n            .where(" ++ struct_name ++ "Model."
    ++ pkColName table
    ++ " == entity_id)\n            .values(**update_data)\n        )\n        await self.session.execute(stmt)\n        await self.session.commit()\n        \n        return await self.find_by_id(entity_id)\n    \n    async def delete(self, entity_id: "
    ++ pk_type ++ ") -> bool:\n        \"\"\"Delete " ++ table.name
    ++ ".\"\"\"\n        stmt = delete(" ++ struct_name ++ "Model).where("
    ++ struct_name ++ "Model." ++ pkColName table
    ++ " == entity_id)\n        result = await self.session.execute(stmt)\n        await self.session.commit()\n        \n        return result.rowcount > 0\n")

end PythonDAOGenerator

/-- The `__init__.py` wiring file written for each table in the python
branch of `generate_dao_from_schema`. -/
def pythonInitContent (table : DatabaseTable) : String :=
  "from .models import " ++ table.struct_name ++ ", " ++ table.struct_name
    ++ "Create, " ++ table.struct_name ++ "Update\nfrom .dao import "
    ++ table.struct_name ++ "DAO\nfrom .sqlalchemy_dao import SQLAlchemy"
    ++ table.struct_name ++ "DAO\n\n__all__ = [\n    \"" ++ table.struct_name
    ++ "\",\n    \"" ++ table.struct_name ++ "Create\", \n    \""
    ++ table.struct_name ++ "Update\",\n    \"" ++ table.struct_name
    ++ "DAO\",\n    \"SQLAlchemy" ++ table.struct_name ++ "DAO\",\n]\n"

/-
## Go emitters (`GoDAOGenerator`)
-/

/-- The expression `pk.go_type if pk else 'uuid.UUID'` computing the key
type of the Go DAO interface and store implementation. -/
def goDaoPkType (t : DatabaseTable) : String :=
  match t.primary_key with
  | some pk => pk.go_type
  | none => "uuid.UUID"

/-- `self.service_name.lower().replace('-', '')`. -/
def goPackageName (service_name : String) : String :=
  ⟨(asciiLower service_name).data.filter (fun c => c != '-')⟩

/-- `''.join(word.capitalize() for word in name.split('_'))` used for Go
field names. -/
def goFieldName (s : String) : String :=
  joinSep "" ((pySplitUnderscore s).map pyCapitalize)

/-- Python `str.lstrip("*")`. -/
def pyLstripStar (s : String) : String :=
  ⟨s.data.dropWhile (fun c => c == '*')⟩

namespace GoDAOGenerator

/-- `GoDAOGenerator.generate_model`. -/
def generate_model (service_name : String) (table : DatabaseTable) : String :=
  let package_name := goPackageName service_name
  let fields := table.columns.map (fun col =>
    "\t" ++ goFieldName col.name ++ " " ++ col.go_type ++ " `json:\"" ++ col.name
      ++ "\" db:\"" ++ col.name ++ "\"`")
  let imports :=
    (if table.columns.any (fun col => containsSub col.go_type "time.Time") then
      ["\t\"time\""] else [])
    ++ (if table.columns.any (fun col => containsSub col.go_type "uuid.UUID") then
      ["\t\"github.com/google/uuid\""] else [])
  let import_block :=
    if imports.isEmpty then "" else "import (\n" ++ joinSep "\n" imports ++ "\n)\n\n"
  let nonPk := table.columns.filter (fun col => !col.primary_key)
  let createFields := nonPk.map (fun col =>
    "\t" ++ goFieldName col.name ++ " " ++ col.go_type ++ " `json:\"" ++ col.name
      ++ "\"`")
  let updateFields := nonPk.map (fun col =>
    "\t" ++ goFieldName col.name ++ " *" ++ pyLstripStar col.go_type ++ " `json:\""
      ++ col.name ++ ",omitempty\"`")
  pyStrip ("\npackage " ++ package_name ++ "\n\n" ++ import_block ++ "// "
    ++ table.struct_name ++ " represents a " ++ table.name ++ " in the system\ntype "
    ++ table.struct_name ++ " struct \x7b\n" ++ joinSep "\n" fields ++ "\n\x7d\n\n// "
    ++ table.struct_name ++ "Create represents the data needed to create a "
    ++ table.name ++ "\ntype " ++ table.struct_name ++ "Create struct \x7b\n  "
    ++ joinSep "\n" createFields ++ "\n\x7d\n\n// " ++ table.struct_name
    ++ "Update represents the data that can be updated for a " ++ table.name
    ++ "\ntype " ++ table.struct_name ++ "Update struct \x7b\n  "
    ++ joinSep "\n" updateFields ++ "\n\x7d\n")

/-- `GoDAOGenerator.generate_dao_interface`. -/
def generate_dao_interface (service_name : String) (table : DatabaseTable) : String :=
  let package_name := goPackageName service_name
  let struct_name := table.struct_name
  let pk_type := goDaoPkType table
  pyStrip ("\npackage " ++ package_name
    ++ "\n\nimport (\n\t\"context\"\n\t\"github.com/google/uuid\"\n)\n\n// "
    ++ struct_name ++ "DAO defines the interface for " ++ table.name
    ++ " data access operations\ntype " ++ struct_name
    ++ "DAO interface \x7b\n\t// FindByID retrieves a " ++ table.name
    ++ " by its ID\n\tFindByID(ctx context.Context, id " ++ pk_type ++ ") (*"
    ++ struct_name ++ ", error)\n\t\n\t// FindAll retrieves all " ++ table.name
    ++ "\n\tFindAll(ctx context.Context) ([]*" ++ struct_name
    ++ ", error)\n\t\n\t// Create creates a new " ++ table.name
    ++ "\n\tCreate(ctx context.Context, entity *" ++ struct_name ++ "Create) (*"
    ++ struct_name ++ ", error)\n\t\n\t// Update updates an existing "
    ++ table.name ++ "\n\tUpdate(ctx context.Context, id " ++ pk_type
    ++ ", entity *" ++ struct_name ++ "Update) (*" ++ struct_name
    ++ ", error)\n\t\n\t// Delete deletes a " ++ table.name
    ++ " by its ID\n\tDelete(ctx context.Context, id " ++ pk_type
    ++ ") error\n\x7d\n")

/-- `GoDAOGenerator.generate_pg_dao_impl`. -/
def generate_pg_dao_impl (service_name : String) (table : DatabaseTable) : String :=
  let package_name := goPackageName service_name
  let struct_name := table.struct_name
  let impl_name := "pg" ++ struct_name ++ "DAO"
  let pk_type := goDaoPkType table
  pyStrip ("\npackage " ++ package_name
    ++ "\n\nimport (\n\t\"context\"\n\t\"database/sql\"\n\t\"fmt\"\n\t\n\t\"github.com/google/uuid\"\n\t\"github.com/jmoiron/sqlx\"\n)\n\n// "
    ++ impl_name ++ " implements " ++ struct_name
    ++ "DAO using PostgreSQL\ntype " ++ impl_name
    ++ " struct \x7b\n\tdb *sqlx.DB\n\x7d\n\n// New" ++ struct_name
    ++ "DAO creates a new PostgreSQL " ++ struct_name ++ "DAO\nfunc New"
    ++ struct_name ++ "DAO(db *sqlx.DB) " ++ struct_name
    ++ "DAO \x7b\n\treturn &" ++ impl_name
    ++ "\x7b\n\t\tdb: db,\n\t\x7d\n\x7d\n\n// FindByID retrieves a "
    ++ table.name ++ " by its ID\nfunc (d *" ++ impl_name
    ++ ") FindByID(ctx context.Context, id " ++ pk_type ++ ") (*" ++ struct_name
    ++ ", error) \x7b\n\tquery := `SELECT * FROM " ++ table.name ++ " WHERE "
    ++ pkColName table ++ " = $1`\n\t\n\tvar entity " ++ struct_name
    ++ "\n\terr := d.db.GetContext(ctx, &entity, query, id)\n\tif err != nil \x7b\n\t\tif err == sql.ErrNoRows \x7b\n\t\t\treturn nil, nil\n\t\t\x7d\n\t\treturn nil, fmt.Errorf(\"failed to find "
    ++ table.name
    ++ " by ID: %w\", err)\n\t\x7d\n\t\n\treturn &entity, nil\n\x7d\n\n// FindAll retrieves all "
    ++ table.name ++ "\nfunc (d *" ++ impl_name
    ++ ") FindAll(ctx context.Context) ([]*" ++ struct_name
    ++ ", error) \x7b\n\tquery := `SELECT * FROM " ++ table.name
    ++ "`\n\t\n\tvar entities []" ++ struct_name
    ++ "\n\terr := d.db.SelectContext(ctx, &entities, query)\n\tif err != nil \x7b\n\t\treturn nil, fmt.Errorf(\"failed to find all "
    ++ table.name
    ++ ": %w\", err)\n\t\x7d\n\t\n\t// Convert to pointer slice\n\tresult := make([]*"
    ++ struct_name
    ++ ", len(entities))\n\tfor i := range entities \x7b\n\t\tresult[i] = &entities[i]\n\t\x7d\n\t\n\treturn result, nil\n\x7d\n\n// Create creates a new "
    ++ table.name ++ "\nfunc (d *" ++ impl_name
    ++ ") Create(ctx context.Context, entity *" ++ struct_name ++ "Create) (*"
    ++ struct_name
    ++ ", error) \x7b\n\t// Implementation would depend on specific fields and requirements\n\t// This is a basic template\n\treturn nil, fmt.Errorf(\"create method not implemented\")\n\x7d\n\n// Update updates an existing "
    ++ table.name ++ "\nfunc (d *" ++ impl_name
    ++ ") Update(ctx context.Context, id " ++ pk_type ++ ", entity *"
    ++ struct_name ++ "Update) (*" ++ struct_name
    ++ ", error) \x7b\n\t// Implementation would depend on specific fields and requirements\n\t// This is a basic template\n\treturn nil, fmt.Errorf(\"update method not implemented\")\n\x7d\n\n// Delete deletes a "
    ++ table.name ++ " by its ID\nfunc (d *" ++ impl_name
    ++ ") Delete(ctx context.Context, id " ++ pk_type
    ++ ") error \x7b\n\tquery := `DELETE FROM " ++ table.name ++ " WHERE "
    ++ pkColName table
    ++ " = $1`\n\t\n\t_, err := d.db.ExecContext(ctx, query, id)\n\tif err != nil \x7b\n\t\treturn fmt.Errorf(\"failed to delete "
    ++ table.name ++ ": %w\", err)\n\t\x7d\n\t\n\treturn nil\n\x7d\n")

end GoDAOGenerator

/-
## Orchestrator (`generate_dao_from_schema`)
-/

/-- The keys of the `generators` dict, in declaration order. -/
def supportedLanguages : List String := ["rust", "cpp", "python", "go"]

/-- `generate_dao_from_schema`: validate the language against the registry
first (raising `ValueError` otherwise), then read and parse the schema and
dispatch to the per-language branch, collecting every directory creation
and file write in order. -/
def generate_dao_from_schema (schema_file : Option String)
    (output_dir service_name language : String) : Except GenError (List FsOp) :=
  if language ∈ supportedLanguages then
    match schema_file with
    | none => .error .schemaFileNotFound
    | some schema_content =>
        let tables := parse_sql_schema schema_content
        if language = "rust" then
          generate_rust_dao_from_schema schema_file output_dir service_name
        else if language = "cpp" then
          .ok ((tables.map (fun table =>
            [FsOp.mkdir (output_dir ++ "/models"),
             FsOp.mkdir (output_dir ++ "/dao"),
             FsOp.write (output_dir ++ "/models/" ++ table.name ++ ".hpp")
               (CppDAOGenerator.generate_model table),
             FsOp.write (output_dir ++ "/dao/" ++ table.name ++ "_dao.hpp")
               (CppDAOGenerator.generate_dao_interface table),
             FsOp.write (output_dir ++ "/dao/pg_" ++ table.name ++ "_dao.hpp")
               (CppDAOGenerator.generate_pg_dao_impl table)])).flatten)
        else if language = "python" then
          .ok ((tables.map (fun table =>
            let table_dir := output_dir ++ "/" ++ table.name
            [FsOp.mkdir table_dir,
             FsOp.write (table_dir ++ "/models.py")
               (PythonDAOGenerator.generate_model table),
             FsOp.write (table_dir ++ "/dao.py")
               (PythonDAOGenerator.generate_dao_interface table),
             FsOp.write (table_dir ++ "/sqlalchemy_dao.py")
               (PythonDAOGenerator.generate_sqlalchemy_dao table),
             FsOp.write (table_dir ++ "/__init__.py")
               (pythonInitContent table)])).flatten)
        else
          .ok ((tables.map (fun table =>
            [FsOp.write (output_dir ++ "/" ++ table.name ++ ".go")
               (GoDAOGenerator.generate_model service_name table),
             FsOp.write (output_dir ++ "/" ++ table.name ++ "_dao.go")
               (GoDAOGenerator.generate_dao_interface service_name table),
             FsOp.write (output_dir ++ "/pg_" ++ table.name ++ "_dao.go")
               (GoDAOGenerator.generate_pg_dao_impl service_name table)])).flatten)
  else
    .error (.unsupportedLanguage language)

/-
## Spec-side abstractions used for refinement comparison
-/

/-- The abstract column type categories of the spec's data model. -/
inductive TypeCategory
  | Text
  | Integer
  | BigInteger
  | Boolean
  | Timestamp
  | Uuid
  | Json
  deriving DecidableEq, Repr

/-- The abstract category of a raw type token, following the spec's words:
each recognised token maps to its category, every other token falls back to
`Text`.  Stated over the uppercased token like the source's lookups. -/
def specTypeCategory (tok : String) : TypeCategory :=
  match asciiUpper tok with
  | "TEXT" => .Text
  | "VARCHAR" => .Text
  | "INTEGER" => .Integer
  | "BIGINT" => .BigInteger
  | "BOOLEAN" => .Boolean
  | "TIMESTAMP" => .Timestamp
  | "UUID" => .Uuid
  | "JSONB" => .Json
  | _ => .Text

/-
## Helper lemmas
-/

/-- A key absent from the association list's key column is not found. -/
theorem lookup_eq_none_of_not_mem {β : Type} (l : List (String × β)) (k : String)
    (h : k ∉ l.map Prod.fst) : List.lookup k l = none := by
  induction l with
  | nil => rfl
  | cons p t ih =>
      obtain ⟨k1, v1⟩ := p
      simp only [List.map_cons, List.mem_cons, not_or] at h
      have hk : (k == k1) = false := beq_eq_false_iff_ne.mpr h.1
      simp [List.lookup, hk, ih h.2]

/-- The optional wrapper always changes the type string. -/
theorem wrapOptional_ne (b : Backend) (s : String) : wrapOptional b s ≠ s := by
  intro h
  have h2 := congrArg String.length h
  cases b
  case rust =>
    have e1 : String.length "Option<" = 7 := rfl
    have e2 : String.length ">" = 1 := rfl
    simp only [wrapOptional, String.length_append, e1, e2] at h2
    omega
  case cpp =>
    have e1 : String.length "std::optional<" = 14 := rfl
    have e2 : String.length ">" = 1 := rfl
    simp only [wrapOptional, String.length_append, e1, e2] at h2
    omega
  case python =>
    have e1 : String.length "Optional[" = 9 := rfl
    have e2 : String.length "]" = 1 := rfl
    simp only [wrapOptional, String.length_append, e1, e2] at h2
    omega
  case go =>
    have e1 : String.length "*" = 1 := rfl
    simp only [wrapOptional, String.length_append, e1] at h2
    omega

/-
## Claim theorems
-/

/-- C1.  For every backend and column, the resolved native type is the
optional-wrapped base type exactly when `nullable && !primary_key`; a
primary-key column's type is never wrapped, and the wrapped form always
differs from the bare form. -/
theorem claim1_nullability (b : Backend) (c : DatabaseColumn) :
    resolvedType b c =
      (if c.nullable && !c.primary_key then wrapOptional b (baseType b c.column_type)
       else baseType b c.column_type) ∧
    (c.primary_key = true → resolvedType b c = baseType b c.column_type) ∧
    wrapOptional b (baseType b c.column_type) ≠ baseType b c.column_type := by
  refine ⟨?_, ?_, wrapOptional_ne b _⟩
  · cases b <;> rfl
  · intro h
    cases b <;>
      simp [resolvedType, DatabaseColumn.rust_type, DatabaseColumn.cpp_type,
        DatabaseColumn.python_type, DatabaseColumn.go_type, baseType, typeMapping,
        textFallback, h]

/-- Witness for C1 at a concrete primary-key column. -/
theorem claim1_nullability_witness :
    resolvedType .rust ⟨"id", "UUID", true, true, none⟩ = baseType .rust "UUID" :=
  (claim1_nullability .rust ⟨"id", "UUID", true, true, none⟩).2.1 rfl

/-- C2 counterexample.  The scenario-1 schema text is a single line, so the
parser (which splits the column section by line break) produces one column,
not three: the whole section is one line whose first two tokens are `id` and
`UUID`, and which contains both the `NOT NULL` and the `PRIMARY KEY`
markers. -/
theorem claim2_counterexample :
    parse_sql_schema scenario1Schema = [⟨"users", [⟨"id", "UUID", false, true, none⟩]⟩] ∧
    (parse_sql_schema scenario1Schema).map (fun t => t.columns.length) ≠ [3] := by
  exact ⟨by decide, by decide⟩

/-- C2 amended.  With each column declaration on its own line, the schema
parses to one table `users` with three columns in order: `id` (raw `UUID`,
category Uuid, primary key, nullable flag true since its line carries no
`NOT NULL` marker), `email` (category Text, non-null), `bio` (category Text,
nullable). -/
theorem claim2_scenario1_parse :
    parse_sql_schema scenario1SchemaMultiline =
      [⟨"users", [⟨"id", "UUID", true, true, none⟩,
                  ⟨"email", "VARCHAR", false, false, none⟩,
                  ⟨"bio", "TEXT", true, false, none⟩]⟩] ∧
    specTypeCategory "UUID" = .Uuid ∧
    specTypeCategory "VARCHAR" = .Text ∧
    specTypeCategory "TEXT" = .Text := by
  exact ⟨by decide, by decide, by decide, by decide⟩

/-- C3.  Type resolution is total with `Text` fallback: whenever the
uppercased token is not one of the backend's mapped keys, the lookup yields
the backend's default, which is also its `Text` mapping. -/
theorem claim3_total_fallback :
    (∀ (b : Backend) (tok : String),
        asciiUpper tok ∉ (typeMapping b).map Prod.fst → baseType b tok = textFallback b) ∧
    textFallback .rust = "String" ∧ textFallback .cpp = "std::string" ∧
    textFallback .python = "str" ∧ textFallback .go = "string" := by
  refine ⟨?_, rfl, rfl, rfl, rfl⟩
  intro b tok h
  unfold baseType
  rw [lookup_eq_none_of_not_mem _ _ h]
  rfl

/-- Witness for C3 at the unmapped token `FLOAT8`. -/
theorem claim3_total_fallback_witness : baseType .rust "FLOAT8" = textFallback .rust :=
  claim3_total_fallback.1 .rust "FLOAT8" (by decide)

/-- C4 counterexample.  A schema whose column section has two lines that
each contain the `PRIMARY KEY` marker parses to a table with two
primary-key columns, violating the at-most-one invariant. -/
theorem claim4_counterexample :
    parse_sql_schema "CREATE TABLE t (\n  a UUID PRIMARY KEY,\n  b INTEGER PRIMARY KEY\n);" =
      [⟨"t", [⟨"a", "UUID", true, true, none⟩, ⟨"b", "INTEGER", true, true, none⟩]⟩] ∧
    ((parse_sql_schema
        "CREATE TABLE t (\n  a UUID PRIMARY KEY,\n  b INTEGER PRIMARY KEY\n);").map
      (fun t => (t.columns.filter (fun c => c.primary_key)).length)) = [2] := by
  exact ⟨by decide, by decide⟩

/-- C8.  The parser is a total function: the empty schema and fragments that
do not match the bounded `CREATE TABLE ... ;` grammar produce no table, and
a column-section line with fewer than two whitespace tokens produces no
column. -/
theorem claim8_parser_total :
    parse_sql_schema "" = [] ∧
    parse_sql_schema "no ddl here ( just text )" = [] ∧
    parse_sql_schema "CREATE TABLE users (id UUID PRIMARY KEY" = [] ∧
    (∀ line : String,
        (pySplitWs (pyRemoveCommas line)).length < 2 → columnOfLine line = none) := by
  refine ⟨by decide, by decide, by decide, ?_⟩
  intro line h
  simp only [columnOfLine]
  by_cases hc : (pyStartsWith line "CONSTRAINT" || pyStartsWith line "PRIMARY KEY"
      || pyStartsWith line "FOREIGN KEY") = true
  · rw [if_pos hc]
  · rw [if_neg hc]
    rcases hp : pySplitWs (pyRemoveCommas line) with _ | ⟨a, _ | ⟨b, t⟩⟩
    · rfl
    · rfl
    · exfalso
      rw [hp] at h
      simp only [List.length_cons] at h
      omega

/-- Witness for C8 at the one-token line `id`. -/
theorem claim8_parser_total_witness : columnOfLine "id" = none :=
  claim8_parser_total.2.2.2 "id" (by decide)

/-- C9.  Constraint-line discarding is case-sensitive: the lowercase line
`primary key (id)` is not skipped and yields a column named `primary` of raw
type `key` with the primary-key flag set, while the uppercase form is
skipped; and any line that does not begin with one of the three exact
uppercase prefixes and has at least two tokens is never skipped. -/
theorem claim9_case_sensitive_skip :
    columnOfLine "primary key (id)" = some ⟨"primary", "key", true, true, none⟩ ∧
    columnOfLine "PRIMARY KEY (id)" = none ∧
    parseColumns "id UUID,\nprimary key (id)" =
      [⟨"id", "UUID", true, false, none⟩, ⟨"primary", "key", true, true, none⟩] ∧
    (∀ line : String, pyStartsWith line "CONSTRAINT" = false →
        pyStartsWith line "PRIMARY KEY" = false →
        pyStartsWith line "FOREIGN KEY" = false →
        2 ≤ (pySplitWs (pyRemoveCommas line)).length →
        columnOfLine line ≠ none) := by
  refine ⟨by decide, by decide, by decide, ?_⟩
  intro line h1 h2 h3 hlen
  simp only [columnOfLine, h1, h2, h3, Bool.or_self, Bool.false_or, if_false]
  rcases hp : pySplitWs (pyRemoveCommas line) with _ | ⟨a, _ | ⟨b, t⟩⟩
  · rw [hp] at hlen; simp at hlen
  · rw [hp] at hlen; simp at hlen
  · simp

/-- Witness for C9: the lowercase constraint-style line is not skipped. -/
theorem claim9_case_sensitive_skip_witness : columnOfLine "primary key (id)" ≠ none :=
  claim9_case_sensitive_skip.2.2.2 "primary key (id)" (by decide) (by decide) (by decide)
    (by decide)

/-- C10.  Resolution is invariant under the letter case of the raw type
token: two tokens with the same uppercasing resolve identically for every
backend. -/
theorem claim10_case_invariant (b : Backend) (n t₁ t₂ : String) (nb pk : Bool)
    (fk : Option String) (h : asciiUpper t₁ = asciiUpper t₂) :
    resolvedType b ⟨n, t₁, nb, pk, fk⟩ = resolvedType b ⟨n, t₂, nb, pk, fk⟩ := by
  cases b <;>
    simp [resolvedType, DatabaseColumn.rust_type, DatabaseColumn.cpp_type,
      DatabaseColumn.python_type, DatabaseColumn.go_type, h]

/-- C4 amended.  Whenever a table has no primary-key column, every backend's
emitter falls back to a key whose type is that backend's native `Uuid`
mapping and whose column name is `id`. -/
theorem claim4_fallback (t : DatabaseTable) (h : t.primary_key = none) :
    rustDaoPkType t = baseType .rust "UUID" ∧
    cppDaoPkType t = baseType .cpp "UUID" ∧
    pythonDaoPkType t = baseType .python "UUID" ∧
    goDaoPkType t = baseType .go "UUID" ∧
    pkColName t = "id" := by
  refine ⟨?_, ?_, ?_, ?_, ?_⟩ <;>
    simp only [rustDaoPkType, cppDaoPkType, pythonDaoPkType, goDaoPkType,
      pkColName, h] <;>
    decide

/-- Witness for C4 at a table with no columns. -/
theorem claim4_fallback_witness : pkColName ⟨"t", []⟩ = "id" :=
  (claim4_fallback ⟨"t", []⟩ rfl).2.2.2.2

/-- C5.  For every language outside the registry, generation fails with the
unsupported-language error, for every schema-file state (so before any read)
and with no filesystem operation performed. -/
theorem claim5_unsupported_backend (schema_file : Option String)
    (output_dir service_name language : String) (h : language ∉ supportedLanguages) :
    generate_dao_from_schema schema_file output_dir service_name language =
      .error (.unsupportedLanguage language) ∧
    writesOf (generate_dao_from_schema schema_file output_dir service_name language)
      = [] := by
  unfold generate_dao_from_schema
  rw [if_neg h]
  exact ⟨rfl, rfl⟩

/-- Witness for C5 at the unregistered language `java` with a readable
schema. -/
theorem claim5_unsupported_backend_witness :
    generate_dao_from_schema (some scenario1Schema) "out" "svc" "java" =
      .error (.unsupportedLanguage "java") :=
  (claim5_unsupported_backend (some scenario1Schema) "out" "svc" "java" (by decide)).1

/-- C6.  For every supported language, a schema path that does not resolve
to a readable file makes generation fail with the schema-file-not-found
error, with no filesystem operation performed; the standalone Rust
entry point behaves the same. -/
theorem claim6_schema_not_found (output_dir service_name language : String)
    (h : language ∈ supportedLanguages) :
    generate_dao_from_schema none output_dir service_name language =
      .error .schemaFileNotFound ∧
    writesOf (generate_dao_from_schema none output_dir service_name language) = [] ∧
    generate_rust_dao_from_schema none output_dir service_name =
      .error .schemaFileNotFound := by
  unfold generate_dao_from_schema
  rw [if_pos h]
  exact ⟨rfl, rfl, rfl⟩

/-- Witness for C6 at language `rust`. -/
theorem claim6_schema_not_found_witness :
    generate_dao_from_schema none "out" "svc" "rust" = .error .schemaFileNotFound :=
  (claim6_schema_not_found "out" "svc" "rust" (by decide)).1

/-- C7 counterexample.  Rust generation for scenario 1's table writes
exactly the five expected files under `model/users/`, but not every one of
them contains the identifier `Users`: the claim's universal containment
fails (on `mod.rs`, which only re-exports modules). -/
theorem claim7_counterexample :
    (writesOf (generate_rust_dao_from_schema (some scenario1Schema) "." "svc")).map
        Prod.fst =
      ["./model/users/model.rs", "./model/users/dao.rs", "./model/users/pg_dao.rs",
       "./model/users/mock_dao.rs", "./model/users/mod.rs"] ∧
    ¬ (∀ w ∈ writesOf (generate_rust_dao_from_schema (some scenario1Schema) "." "svc"),
        containsSub w.2 "Users" = true) := by
  exact ⟨by decide, by decide⟩

/-- C7 amended.  Rust generation for scenario 1's table writes exactly 5
files under `model/users/` — model.rs, dao.rs, pg_dao.rs, mock_dao.rs,
mod.rs — and the first four each contain the identifier `Users`, while
mod.rs does not. -/
theorem claim7_five_files :
    (writesOf (generate_rust_dao_from_schema (some scenario1Schema) "." "svc")).map
        Prod.fst =
      ["./model/users/model.rs", "./model/users/dao.rs", "./model/users/pg_dao.rs",
       "./model/users/mock_dao.rs", "./model/users/mod.rs"] ∧
    (writesOf (generate_rust_dao_from_schema (some scenario1Schema) "." "svc")).map
        (fun w => containsSub w.2 "Users") =
      [true, true, true, true, false] := by
  exact ⟨by decide, by decide⟩

/-- Witness for C10 at `uuid` vs `UUID`. -/
theorem claim10_case_invariant_witness :
    resolvedType .rust ⟨"id", "uuid", false, false, none⟩ =
      resolvedType .rust ⟨"id", "UUID", false, false, none⟩ :=
  claim10_case_invariant .rust "id" "uuid" "UUID" false false none (by decide)

end Codegen
